import Mathlib

/-!
Verification of the gopv mpv IPC client (request/response correlation engine
and asynchronous dispatch subsystem).

The definitions below are a shallow embedding of the current client variant
(the file with per-registry mutexes: `RegisterListener`, `dispatch` keyed on
the typed `ID` field).  Pure code (the frame codec, the branch structure of
the loops, the registries) is translated directly; external effects
(`json.Marshal` results, `conn.Write` results, the response a dispatcher
eventually delivers) are injected as explicit parameters; goroutine spawns
and channel operations are recorded in explicit traces and channel states.
JSON numbers are modelled as integers: every frame appearing in the claims
carries only integer numerics.
-/

namespace Gopv

/-- JSON values as Go's `encoding/json` sees them (`any`), with numbers
restricted to integers (sufficient for every frame in scope). -/
inductive Json where
  | null : Json
  | bool (b : Bool) : Json
  | num (n : Int) : Json
  | str (s : String) : Json
  | arr (xs : List Json) : Json
  | obj (kvs : List (String × Json)) : Json

/-- Minimal JSON string escaping (quote and backslash), as `encoding/json`
performs for strings without control characters. -/
def escapeChar (c : Char) : String :=
  if c = '"' then "\\\""
  else if c = '\\' then "\\\\"
  else String.singleton c

def escapeString (s : String) : String :=
  String.join (s.data.map escapeChar)

mutual

/-- Rendering of a JSON value to its wire text, mirroring `json.Marshal`
on the corresponding Go `any` value (objects keep the given field order). -/
def Json.render : Json → String
  | .null => "null"
  | .bool true => "true"
  | .bool false => "false"
  | .num n => toString n
  | .str s => "\"" ++ escapeString s ++ "\""
  | .arr xs => "[" ++ Json.renderList xs ++ "]"
  | .obj kvs => "\x7b" ++ Json.renderObj kvs ++ "\x7d"

def Json.renderList : List Json → String
  | [] => ""
  | [x] => Json.render x
  | x :: y :: rest => Json.render x ++ "," ++ Json.renderList (y :: rest)

def Json.renderObj : List (String × Json) → String
  | [] => ""
  | [(k, v)] => "\"" ++ escapeString k ++ "\":" ++ Json.render v
  | (k, v) :: p :: rest =>
      "\"" ++ escapeString k ++ "\":" ++ Json.render v ++ "," ++ Json.renderObj (p :: rest)

end

/-! ### A small JSON parser (fuel-indexed, over character lists)

Models the decoding side of the codec (`json.Unmarshal` /
`swallowjson.UnmarshalWith`) down to the bytes of a line. -/

def isWs (c : Char) : Bool :=
  c = ' ' || c = '\n' || c = '\t' || c = '\r'

def skipWs : List Char → List Char
  | [] => []
  | c :: rest => if isWs c then skipWs rest else c :: rest

def isDigit (c : Char) : Bool :=
  '0' ≤ c && c ≤ '9'

def digitVal (c : Char) : Nat :=
  c.toNat - '0'.toNat

/-- Parse a run of digits, accumulating their value. Returns the value,
how many digits were consumed, and the rest. -/
def parseDigits : List Char → Nat → Nat → (Nat × Nat × List Char)
  | [], acc, count => (acc, count, [])
  | c :: rest, acc, count =>
      if isDigit c then parseDigits rest (acc * 10 + digitVal c) (count + 1)
      else (acc, count, c :: rest)

/-- Parse the body of a JSON string literal (after the opening quote),
handling the two escapes `escapeString` produces. -/
def parseStringBody : Nat → List Char → Option (String × List Char)
  | 0, _ => none
  | _, [] => none
  | fuel + 1, c :: rest =>
      if c = '"' then some ("", rest)
      else if c = '\\' then
        match rest with
        | [] => none
        | e :: rest2 =>
            match parseStringBody fuel rest2 with
            | none => none
            | some (s, r) =>
                if e = '"' then some ("\"" ++ s, r)
                else if e = '\\' then some ("\\" ++ s, r)
                else none
      else
        match parseStringBody fuel rest with
        | none => none
        | some (s, r) => some (String.singleton c ++ s, r)

mutual

def parseVal : Nat → List Char → Option (Json × List Char)
  | 0, _ => none
  | _, [] => none
  | fuel + 1, c :: rest =>
      if isWs c then parseVal fuel rest
      else if c = 'n' then
        match rest with
        | 'u' :: 'l' :: 'l' :: r => some (.null, r)
        | _ => none
      else if c = 't' then
        match rest with
        | 'r' :: 'u' :: 'e' :: r => some (.bool true, r)
        | _ => none
      else if c = 'f' then
        match rest with
        | 'a' :: 'l' :: 's' :: 'e' :: r => some (.bool false, r)
        | _ => none
      else if c = '"' then
        match parseStringBody fuel rest with
        | none => none
        | some (s, r) => some (.str s, r)
      else if c = '-' then
        match parseDigits rest 0 0 with
        | (_, 0, _) => none
        | (v, _ + 1, r) => some (.num (-(v : Int)), r)
      else if isDigit c then
        match parseDigits (c :: rest) 0 0 with
        | (_, 0, _) => none
        | (v, _ + 1, r) => some (.num (v : Int), r)
      else if c = '[' then
        match skipWs rest with
        | ']' :: r => some (.arr [], r)
        | r => parseArrItems fuel r []
      else if c = '\x7b' then
        match skipWs rest with
        | '\x7d' :: r => some (.obj [], r)
        | r => parseObjItems fuel r []
      else none

def parseArrItems : Nat → List Char → List Json → Option (Json × List Char)
  | 0, _, _ => none
  | fuel + 1, input, acc =>
      match parseVal fuel input with
      | none => none
      | some (v, r) =>
          match skipWs r with
          | ',' :: r2 => parseArrItems fuel r2 (acc ++ [v])
          | ']' :: r2 => some (.arr (acc ++ [v]), r2)
          | _ => none

def parseObjItems : Nat → List Char → List (String × Json) → Option (Json × List Char)
  | 0, _, _ => none
  | fuel + 1, input, acc =>
      match skipWs input with
      | '"' :: r =>
          match parseStringBody fuel r with
          | none => none
          | some (k, r2) =>
              match skipWs r2 with
              | ':' :: r3 =>
                  match parseVal fuel r3 with
                  | none => none
                  | some (v, r4) =>
                      match skipWs r4 with
                      | ',' :: r5 => parseObjItems fuel r5 (acc ++ [(k, v)])
                      | '\x7d' :: r5 => some (.obj (acc ++ [(k, v)]), r5)
                      | _ => none
              | _ => none
      | _ => none

end

/-- Parse one complete JSON value from a string; trailing whitespace
(including the line's terminating newline) is allowed, trailing garbage is
not — matching `json.Unmarshal` on a full input. -/
def parseJson (s : String) : Option Json :=
  match parseVal (s.length * 2 + 2) s.data with
  | none => none
  | some (v, rest) => if skipWs rest = [] then some v else none

/-! ### Data model (`ipcResponse`, `ipcRequest`) -/

/-- The decoded inbound frame (`ipcResponse` in the source).  Fields mirror
the Go struct and its json tags: `error`, `data`, `request_id`, `event`,
`id`; `EventData` receives the keys not matching any tagged field
(`swallowjson.UnmarshalWith` with spill target `EventData`). -/
structure ipcResponse where
  Error : String
  Data : Json
  RequestID : Int
  Event : String
  EventData : List (String × Json)
  ID : Int

/-- The outbound request (`ipcRequest` in the source).  `responseChan` is
the identity of the attached reply channel — `none` when no channel has
been attached yet, as for a struct freshly produced by `json.Unmarshal`
(the field is unexported, so decoding never populates it). -/
structure ipcRequest where
  Command : List Json
  RequestID : Int
  Async : Bool
  responseChan : Option Int

/-- Go-map—style lookup in an association list. -/
def lookupK {α β : Type} [DecidableEq α] (k : α) : List (α × β) → Option β
  | [] => none
  | p :: rest => if p.1 = k then some p.2 else lookupK k rest

/-- Go-map—style insertion into an association list: replaces any existing
binding of the key. -/
def insertK {α β : Type} [DecidableEq α] (k : α) (v : β) (m : List (α × β)) : List (α × β) :=
  (k, v) :: m.filter (fun p => decide (p.1 ≠ k))

/-- Go-map—style `delete`. -/
def eraseK {α β : Type} [DecidableEq α] (k : α) (m : List (α × β)) : List (α × β) :=
  m.filter (fun p => decide (p.1 ≠ k))

def getField (kvs : List (String × Json)) (k : String) : Option Json :=
  lookupK k kvs

/-- Decode a JSON field into a Go `string` field: absent means the zero
value `""`; a non-string value is an unmarshal error. -/
def fieldString (kvs : List (String × Json)) (k : String) : Except String String :=
  match getField kvs k with
  | none => .ok ""
  | some (.str s) => .ok s
  | some _ => .error ("cannot unmarshal field " ++ k)

/-- Decode a JSON field into a Go `int` field: absent means `0`; a
non-integer value is an unmarshal error. -/
def fieldInt (kvs : List (String × Json)) (k : String) : Except String Int :=
  match getField kvs k with
  | none => .ok 0
  | some (.num n) => .ok n
  | some _ => .error ("cannot unmarshal field " ++ k)

/-- Decode a JSON field into a Go `bool` field. -/
def fieldBool (kvs : List (String × Json)) (k : String) : Except String Bool :=
  match getField kvs k with
  | none => .ok false
  | some (.bool b) => .ok b
  | some _ => .error ("cannot unmarshal field " ++ k)

/-- Decode a JSON field into a Go `[]any` field: absent or `null` leaves
the nil slice; anything but an array is an unmarshal error. -/
def fieldCommand (kvs : List (String × Json)) : Except String (List Json) :=
  match getField kvs "command" with
  | none => .ok []
  | some (.arr xs) => .ok xs
  | some .null => .ok []
  | some _ => .error "cannot unmarshal field command"

def knownResponseKey (k : String) : Bool :=
  k = "error" || k = "data" || k = "request_id" || k = "event" || k = "id"

/-- `swallowjson.UnmarshalWith(response, "EventData", data)` applied to a
parsed JSON value: tagged fields are filled (with Go zero values when
absent), every unknown key spills into `EventData`.  A JSON `null` input
leaves the whole struct at its zero value without error, as
`json.Unmarshal` does; any other non-object input is an error. -/
def decodeResponse : Json → Except String ipcResponse
  | .obj kvs =>
      match fieldString kvs "error" with
      | .error e => .error e
      | .ok er =>
          match fieldInt kvs "request_id" with
          | .error e => .error e
          | .ok rid =>
              match fieldString kvs "event" with
              | .error e => .error e
              | .ok ev =>
                  match fieldInt kvs "id" with
                  | .error e => .error e
                  | .ok i =>
                      .ok { Error := er, Data := (getField kvs "data").getD .null,
                            RequestID := rid, Event := ev,
                            EventData := kvs.filter (fun p => !knownResponseKey p.1), ID := i }
  | .null => .ok { Error := "", Data := .null, RequestID := 0, Event := "", EventData := [], ID := 0 }
  | _ => .error "cannot unmarshal into ipcResponse"

/-- `json.Unmarshal(requestRaw, request)` for `*ipcRequest`: tagged fields
`command`, `request_id`, `async`; unknown keys ignored; the unexported
`responseChan` stays nil. -/
def decodeRequest : Json → Except String ipcRequest
  | .obj kvs =>
      match fieldCommand kvs with
      | .error e => .error e
      | .ok cmd =>
          match fieldInt kvs "request_id" with
          | .error e => .error e
          | .ok rid =>
              match fieldBool kvs "async" with
              | .error e => .error e
              | .ok a => .ok { Command := cmd, RequestID := rid, Async := a, responseChan := none }
  | .null => .ok { Command := [], RequestID := 0, Async := false, responseChan := none }
  | _ => .error "cannot unmarshal into ipcRequest"

/-- `json.Marshal(req)` for an `ipcRequest`: one JSON object in struct
field order (`command`, `request_id`, `async`); the unexported
`responseChan` is omitted. -/
def encodeRequest (r : ipcRequest) : String :=
  Json.render (.obj
    [("command", .arr r.Command), ("request_id", .num r.RequestID), ("async", .bool r.Async)])

/-- What the Reader Loop does to one raw line: parse the JSON, then decode
it as the `read` goroutine does via swallowjson. -/
def decodeLine (l : String) : Except String ipcResponse :=
  match parseJson l with
  | none => .error "invalid JSON line"
  | some j => decodeResponse j

/-! ### Request lifecycle (`requestSend`, `requestInternal`, `RequestJSON`) -/

/-- The outcome a caller of `Request`/`RequestSync`/`RequestJSON` gets back:
`ErrClosed`, an `MpvError` carrying the raw error string, or the data
payload. -/
inductive GoResult where
  | errClosed : GoResult
  | mpvError (status : String) : GoResult
  | ok (data : Json) : GoResult

def GoResult.failed : GoResult → Bool
  | .ok _ => false
  | _ => true

/-- `requestSend`: the closed-flag guard, the handoff to the writer via the
receiver channel, and the handling of the eventual reply.  `response` is
the reply the dispatcher later delivers on the request's channel (injected:
it comes from the remote process).  The second component is the request
handed to the receiver channel, `none` when nothing was sent. -/
def requestSend (closed : Bool) (request : ipcRequest) (response : ipcResponse) :
    GoResult × Option ipcRequest :=
  if closed then (.errClosed, none)
  else if response.Error ≠ "success" then (.mpvError response.Error, some request)
  else (.ok response.Data, some request)

/-- `requestInternal`: builds the request with a fresh random id, the async
hint, and a new unbuffered reply channel, then delegates to `requestSend`.
`freshId` and `freshChan` stand for `rand.Int()` and `make(chan)`. -/
def requestInternal (closed : Bool) (command : List Json) (freshId freshChan : Int)
    (async : Bool) (response : ipcResponse) : GoResult × Option ipcRequest :=
  requestSend closed
    { Command := command, RequestID := freshId, Async := async, responseChan := some freshChan }
    response

inductive ReqJsonOutcome where
  | decodeError (e : String) : ReqJsonOutcome
  | result (r : GoResult) : ReqJsonOutcome

/-- The unmarshal step of `RequestJSON`. -/
def parseRequest (raw : String) : Except String ipcRequest :=
  match parseJson raw with
  | none => .error "invalid JSON input"
  | some j => decodeRequest j

/-- `RequestJSON`: unmarshal the caller's JSON; on failure return the
decode error (nothing sent).  Otherwise overwrite `RequestID` with a fresh
random id, attach a fresh buffered reply channel, and delegate to
`requestSend`. -/
def RequestJSON (closed : Bool) (raw : String) (freshId freshChan : Int)
    (response : ipcResponse) : ReqJsonOutcome × Option ipcRequest :=
  match parseRequest raw with
  | .error e => (.decodeError e, none)
  | .ok req0 =>
      let request := { req0 with RequestID := freshId, responseChan := some freshChan }
      let p := requestSend closed request response
      (.result p.1, p.2)

/-! ### Listener registration (`RegisterListener`) -/

/-- `RegisterListener`: callbacks are opaque tags; the listener registry is
`none` while the Go map is still nil.  `enableResult` is the injected
outcome of `c.Request("enable_event", event)`.  Returns the new registry,
the list of commands issued through `Request`, and the error returned to
the caller (`none` for nil). -/
def RegisterListener (listeners : Option (List (String × Nat))) (event : String)
    (listener : Nat) (enableResult : GoResult) :
    Option (List (String × Nat)) × List (List Json) × Option GoResult :=
  match listeners with
  | none =>
      (some (insertK event listener []), [], none)
  | some m =>
      match lookupK event m with
      | some _ => (some (insertK event listener m), [], none)
      | none =>
          if enableResult.failed then (some m, [[.str "enable_event", .str event]], some enableResult)
          else (some (insertK event listener m), [[.str "enable_event", .str event]], none)

/-! ### Close (`Close`) -/

/-- The lifecycle flags `Close` touches: the `closed` field, whether the
`receiver` channel has been closed, and whether `conn.Close()` has been
called. -/
structure CloseState where
  closed : Bool
  receiverClosed : Bool
  connClosed : Bool

/-- `Close`: set the closed flag, `close(c.receiver)`, `c.conn.Close()`.
Closing an already-closed Go channel panics, so when `receiverClosed`
already holds the run stops there (the second component reports the
panic) with the flag set but the transport release not reached. -/
def Close (s : CloseState) : CloseState × Bool :=
  let s1 : CloseState := { s with closed := true }
  if s1.receiverClosed then (s1, true)
  else ({ closed := true, receiverClosed := true, connClosed := true }, false)

/-! ### Dispatcher (`dispatch`) and client state -/

/-- A reply channel's observable state: the values sent on it and whether
it has been closed. -/
structure Chan where
  sent : List ipcResponse
  isClosed : Bool

/-- The channel attached to a fresh request (`make(chan *ipcResponse)`):
empty and open. -/
def freshReplyChan : Chan :=
  { sent := [], isClosed := false }

/-- A goroutine spawned by the dispatcher (`go observer(...)` /
`go listener(...)`); callbacks are opaque tags. -/
inductive Spawn where
  | observerCall (tag : Nat) (data : Json) : Spawn
  | listenerCall (tag : Nat) (payload : List (String × Json)) : Spawn

/-- The shared mutable state `dispatch` touches: the pending-request
registry (`none` while the Go map is nil, each entry holding its reply
channel's state), the channels already handed back to blocked callers, the
observer and listener registries, and the spawned callback goroutines. -/
structure DState where
  requests : Option (List (Int × Chan))
  completed : List (Int × Chan)
  observers : Option (List (Int × Nat))
  listeners : Option (List (String × Nat))
  spawns : List Spawn

/-- `dispatch`, translated case by case from the `switch response.Event`.
A command reply (`event` empty) sends the response on the registered reply
channel, closes that channel, and deletes the registry entry — the
finished channel moves to `completed`, standing for the blocked caller now
holding it.  A `property-change` looks up `response.ID` among the
observers and spawns the callback on the data payload.  Any other event
looks up the name among the listeners and spawns the callback on the
event payload. -/
def dispatch (s : DState) (response : ipcResponse) : DState :=
  if response.Event = "" then
    match s.requests with
    | none => s
    | some m =>
        match lookupK response.RequestID m with
        | none => s
        | some ch =>
            { s with
              requests := some (eraseK response.RequestID m),
              completed := s.completed ++
                [(response.RequestID, { sent := ch.sent ++ [response], isClosed := true })] }
  else if response.Event = "property-change" then
    match s.observers with
    | none => s
    | some m =>
        match lookupK response.ID m with
        | none => s
        | some tag => { s with spawns := s.spawns ++ [.observerCall tag response.Data] }
  else
    match s.listeners with
    | none => s
    | some m =>
        match lookupK response.Event m with
        | none => s
        | some tag => { s with spawns := s.spawns ++ [.listenerCall tag response.EventData] }

/-! ### Writer Loop (`write`) -/

/-- Observable steps of one `write` iteration: registry insertion,
a successful transport write, a call to `publishError`. -/
inductive WEvent where
  | registered (id : Int) : WEvent
  | wrote (bytes : String) : WEvent
  | errorReported (e : String) : WEvent

/-- One iteration of the `write` goroutine on a dequeued request.
`marshalResult` injects the outcome of `json.Marshal(req)`; `w1`/`w2`
inject the errors of the two `conn.Write` calls (body, then newline).
The body mirrors the source order: marshal (on error, report and
continue), insert into the pending-request registry (creating the map if
nil; the stored channel is the request's own, which is fresh — created by
`requestInternal`/`RequestJSON` and never written before registration),
write the body, write the newline, reporting and continuing on either
failure.  No path touches the reply channel. -/
def writeStep (requests : Option (List (Int × Chan))) (req : ipcRequest)
    (marshalResult : Except String String) (w1 w2 : Option String) :
    Option (List (Int × Chan)) × List WEvent :=
  match marshalResult with
  | .error e => (requests, [.errorReported e])
  | .ok body =>
      let m2 := insertK req.RequestID freshReplyChan (requests.getD [])
      match w1 with
      | some e => (some m2, [.registered req.RequestID, .errorReported e])
      | none =>
          match w2 with
          | some e => (some m2, [.registered req.RequestID, .wrote body, .errorReported e])
          | none => (some m2, [.registered req.RequestID, .wrote body, .wrote "\n"])

/-- One queued request together with the injected outcomes of its
external effects. -/
structure WriteJob where
  req : ipcRequest
  marshalResult : Except String String
  w1 : Option String
  w2 : Option String

/-- The `write` goroutine over the drained queue contents: each job is
processed by `writeStep` and the loop continues with the next one
regardless of failures. -/
def writeLoop : List WriteJob → Option (List (Int × Chan)) →
    Option (List (Int × Chan)) × List WEvent
  | [], s => (s, [])
  | j :: rest, s =>
      let p := writeStep s j.req j.marshalResult j.w1 j.w2
      let q := writeLoop rest p.1
      (q.1, p.2 ++ q.2)

/-! ### Reader Loop (`read`) -/

/-- One result of `reader.ReadBytes` as the Reader Loop sees it:
end-of-stream, some other read error, or a complete line. -/
inductive ReadInput where
  | eofMark : ReadInput
  | readError (e : String) : ReadInput
  | line (l : String) : ReadInput

/-- Observable actions of the Reader Loop. -/
inductive RAction where
  | closedDown : RAction
  | reportedContinue (e : String) : RAction
  | reportedDecode (e : String) : RAction
  | dispatched (r : ipcResponse) : RAction

/-- The `read` goroutine over a sequence of injected read results.
End-of-stream calls `Close` and returns (later inputs never read); another
read error is published and the loop continues; a line that fails to
decode is published and discarded without dispatch; a decoded response
goes to `dispatch`. -/
def readLoop : List ReadInput → DState → CloseState → DState × CloseState × List RAction
  | [], s, cs => (s, cs, [])
  | .eofMark :: _, s, cs => (s, (Close cs).1, [.closedDown])
  | .readError e :: rest, s, cs =>
      let t := readLoop rest s cs
      (t.1, t.2.1, .reportedContinue e :: t.2.2)
  | .line l :: rest, s, cs =>
      match decodeLine l with
      | .error e =>
          let t := readLoop rest s cs
          (t.1, t.2.1, .reportedDecode e :: t.2.2)
      | .ok r =>
          let t := readLoop rest (dispatch s r) cs
          (t.1, t.2.1, .dispatched r :: t.2.2)

/-! ### Shared concrete samples and helper lemmas -/

def sampleReq : ipcRequest :=
  { Command := [.str "get_property", .str "volume"], RequestID := 42, Async := false,
    responseChan := some 1 }

def successResp : ipcResponse :=
  { Error := "success", Data := .num 50, RequestID := 42, Event := "", EventData := [], ID := 0 }

def notFoundResp : ipcResponse :=
  { Error := "property not found", Data := .null, RequestID := 42, Event := "",
    EventData := [], ID := 0 }

/-- A client state with no registries populated. -/
def emptyState : DState :=
  { requests := none, completed := [], observers := none, listeners := none, spawns := [] }

/-- A client state with a single pending request `42` holding its fresh
reply channel. -/
def pending42 : DState :=
  { requests := some [(42, freshReplyChan)], completed := [], observers := none,
    listeners := none, spawns := [] }

/-- The lifecycle flags of a freshly connected client. -/
def openClient : CloseState :=
  { closed := false, receiverClosed := false, connClosed := false }

theorem lookup_eraseK (k : Int) (m : List (Int × Chan)) :
    lookupK k (eraseK k m) = none := by
  induction m with
  | nil => rfl
  | cons p rest ih =>
      by_cases h : p.1 = k
      · simpa [eraseK, List.filter_cons, h] using ih
      · simpa [eraseK, lookupK, List.filter_cons, h] using ih

theorem requestSend_sent_eq (closed : Bool) (request : ipcRequest) (response : ipcResponse)
    (r : ipcRequest) (h : (requestSend closed request response).2 = some r) : r = request := by
  unfold requestSend at h
  by_cases hc : closed
  · simp [hc] at h
  · by_cases he : response.Error = "success" <;> simp [hc, he] at h <;> exact h.symm

/-! ### Claim theorems -/

/-- Claim C4: for every reply delivered to a waiting `Request`/`RequestSync`
caller, a reply whose error field differs from the literal `"success"`
yields an `MpvError` carrying the raw error string, and a reply whose
error field equals `"success"` yields the reply's data payload with no
error. -/
theorem requestInternal_reply_outcome (command : List Json) (freshId freshChan : Int)
    (async : Bool) (response : ipcResponse) :
    (response.Error ≠ "success" →
      (requestInternal false command freshId freshChan async response).1 =
        .mpvError response.Error) ∧
    (response.Error = "success" →
      (requestInternal false command freshId freshChan async response).1 =
        .ok response.Data) := by
  refine ⟨fun h => ?_, fun h => ?_⟩ <;> simp [requestInternal, requestSend, h]

/-- Witness: the reply with error `"property not found"` yields an
`MpvError` carrying exactly that string, and a `"success"` reply with data
`50` yields `50`. -/
theorem requestInternal_reply_outcome_witness :
    (requestInternal false [.str "get_property", .str "volume"] 42 1 true notFoundResp).1 =
      .mpvError "property not found" ∧
    (requestInternal false [.str "get_property", .str "volume"] 42 1 true successResp).1 =
      .ok (.num 50) :=
  ⟨(requestInternal_reply_outcome _ 42 1 true notFoundResp).1 (by decide),
   (requestInternal_reply_outcome _ 42 1 true successResp).2 rfl⟩

/-- Claim C5: `Close` leaves the closed flag set, and a request attempted
with the flag set returns `ErrClosed` at the guard, handing nothing to the
writer goroutine — so no transport write happens for it and no registry
entry is ever inserted (insertion only happens in `writeStep` on dequeued
requests). -/
theorem request_after_close (cs : CloseState) (command : List Json)
    (freshId freshChan : Int) (async : Bool) (response : ipcResponse) :
    (Close cs).1.closed = true ∧
    requestInternal true command freshId freshChan async response = (.errClosed, none) := by
  constructor
  · cases h : cs.receiverClosed <;> simp [Close, h]
  · rfl

/-- Claim C2 (code bug): on a fresh client whose listener map is still nil,
the very first `RegisterListener` call takes the map-initialisation branch
and issues no `enable_event` command at all while still registering the
callback, contrary to the claim (and to the function's own documentation);
by contrast, the same call on a client that already holds a listener for a
different event issues exactly one `enable_event` command. -/
theorem registerListener_first_ever_skips_enable :
    RegisterListener none "seek" 0 (.ok .null) = (some [("seek", 0)], [], none) ∧
    RegisterListener (some [("pause", 1)]) "seek" 0 (.ok .null) =
      (some [("seek", 0), ("pause", 1)], [[.str "enable_event", .str "seek"]], none) :=
  ⟨rfl, rfl⟩

/-- Claim C6 (counterexample): triggering close-down twice is not free of
failure — the second `Close` invocation panics on `close(c.receiver)`,
since the request queue channel is already closed. -/
theorem close_twice_panics :
    (Close (Close { closed := false, receiverClosed := false, connClosed := false }).1).2 =
      true := rfl

/-- Claim C6 (amended): the first close-down sets the closed flag, closes
the request queue and releases the transport exactly once, and the flag is
never reset; but a repeated close-down panics on closing the already
closed queue, before reaching the transport release. -/
theorem close_once_then_panic (s : CloseState) :
    (s.receiverClosed = false →
      Close s = ({ closed := true, receiverClosed := true, connClosed := true }, false)) ∧
    (s.receiverClosed = true → Close s = ({ s with closed := true }, true)) ∧
    (Close s).1.closed = true := by
  refine ⟨fun h => ?_, fun h => ?_, ?_⟩
  · simp [Close, h]
  · simp [Close, h]
  · cases h : s.receiverClosed <;> simp [Close, h]

/-- Witness: from the initial state the first `Close` closes everything
without panic; invoked again on the resulting state it panics. -/
theorem close_once_then_panic_witness :
    Close { closed := false, receiverClosed := false, connClosed := false } =
      ({ closed := true, receiverClosed := true, connClosed := true }, false) ∧
    Close { closed := true, receiverClosed := true, connClosed := true } =
      ({ closed := true, receiverClosed := true, connClosed := true }, true) :=
  ⟨(close_once_then_panic _).1 rfl, (close_once_then_panic _).2.1 rfl⟩

/-- Claim C10: whatever request id the caller's JSON carries, the request
`RequestJSON` actually hands to the writer bears the freshly generated
random id and a freshly attached single-use reply channel; an input that
fails to decode returns the decode error with nothing sent (and hence
nothing registered). -/
theorem requestJSON_replaces_id (closed : Bool) (raw : String) (freshId freshChan : Int)
    (response : ipcResponse) (req : ipcRequest) (e : String) :
    ((RequestJSON closed raw freshId freshChan response).2 = some req →
      req.RequestID = freshId ∧ req.responseChan = some freshChan) ∧
    (parseRequest raw = .error e →
      RequestJSON closed raw freshId freshChan response = (.decodeError e, none)) := by
  constructor
  · intro h
    unfold RequestJSON at h
    cases hp : parseRequest raw with
    | error e0 => rw [hp] at h; simp at h
    | ok req0 =>
        rw [hp] at h
        have := requestSend_sent_eq closed _ response req h
        rw [this]
        exact ⟨rfl, rfl⟩
  · intro hp
    unfold RequestJSON
    rw [hp]

/-- Witness: a caller-supplied `request_id` of `7` is replaced by the fresh
id `42` with the fresh channel `5` attached, and a non-JSON input returns
the decode error with nothing sent. -/
theorem requestJSON_replaces_id_witness :
    ({ Command := [.str "quit"], RequestID := 42, Async := false,
        responseChan := some 5 } : ipcRequest).RequestID = 42 ∧
    ({ Command := [.str "quit"], RequestID := 42, Async := false,
        responseChan := some 5 } : ipcRequest).responseChan = some 5 ∧
    RequestJSON false "not json" 42 5 successResp = (.decodeError "invalid JSON input", none) :=
  ⟨((requestJSON_replaces_id false "\x7b\"command\":[\"quit\"],\"request_id\":7\x7d" 42 5
      successResp _ "x").1 rfl).1,
   ((requestJSON_replaces_id false "\x7b\"command\":[\"quit\"],\"request_id\":7\x7d" 42 5
      successResp _ "x").1 rfl).2,
   (requestJSON_replaces_id false "not json" 42 5 successResp sampleReq
      "invalid JSON input").2 rfl⟩

/-- Claim C1: a command reply (empty event field) bearing a registered
request id is delivered on that id's reply channel exactly once, the
channel is closed and the registry entry removed in the same dispatch
step; a second frame bearing the same id, or a frame whose id matches no
registered entry (or arriving while the registry map is still nil), is
silently discarded with no delivery and no state change. -/
theorem dispatch_reply_exactly_once (s : DState) (m : List (Int × Chan)) (r : ipcResponse)
    (ch : Chan) (hev : r.Event = "") :
    (s.requests = none → dispatch s r = s) ∧
    (s.requests = some m → lookupK r.RequestID m = none → dispatch s r = s) ∧
    (s.requests = some m → lookupK r.RequestID m = some ch →
      dispatch s r =
        { s with requests := some (eraseK r.RequestID m),
                 completed := s.completed ++
                   [(r.RequestID, { sent := ch.sent ++ [r], isClosed := true })] } ∧
      lookupK r.RequestID (eraseK r.RequestID m) = none ∧
      dispatch (dispatch s r) r = dispatch s r) := by
  refine ⟨fun h => ?_, fun h hl => ?_, fun h hl => ?_⟩
  · simp [dispatch, hev, h]
  · simp [dispatch, hev, h, hl]
  · have hd : dispatch s r =
        { s with requests := some (eraseK r.RequestID m),
                 completed := s.completed ++
                   [(r.RequestID, { sent := ch.sent ++ [r], isClosed := true })] } := by
      simp [dispatch, hev, h, hl]
    refine ⟨hd, lookup_eraseK _ _, ?_⟩
    rw [hd]
    simp [dispatch, hev, lookup_eraseK]

/-- Witness: with one pending request `42` holding its fresh channel, the
reply is delivered once and the channel closed with the entry removed, and
a resent duplicate of the same frame changes nothing further. -/
theorem dispatch_reply_exactly_once_witness :
    dispatch pending42 successResp =
      { requests := some [], completed := [(42, { sent := [successResp], isClosed := true })],
        observers := none, listeners := none, spawns := [] } ∧
    dispatch (dispatch pending42 successResp) successResp = dispatch pending42 successResp := by
  have h := (dispatch_reply_exactly_once pending42 [(42, freshReplyChan)] successResp
    freshReplyChan rfl).2.2 rfl rfl
  exact ⟨h.1, h.2.2⟩

/-- Claim C3: for every request dequeued by the writer, the registry
insertion (keyed by the request id, holding the request's fresh reply
channel) happens before any transport write; a marshal failure or a
failure of either write is reported to the error sink, the reply channel
is never signaled (the registered channel stays empty and open, and no
path of `writeStep` emits a delivery), and the loop proceeds to the next
queued request. -/
theorem writer_registers_before_write (requests : Option (List (Int × Chan)))
    (req : ipcRequest) (mr : Except String String) (w1 w2 : Option String)
    (e body : String) (j : WriteJob) (rest : List WriteJob) :
    (∀ b, WEvent.wrote b ∈ (writeStep requests req mr w1 w2).2 →
      (writeStep requests req mr w1 w2).2.head? = some (.registered req.RequestID)) ∧
    (mr = .ok body →
      (writeStep requests req mr w1 w2).1 =
        some (insertK req.RequestID freshReplyChan (requests.getD []))) ∧
    (writeStep requests req (.error e) w1 w2 = (requests, [.errorReported e])) ∧
    (writeStep requests req (.ok body) (some e) w2 =
      (some (insertK req.RequestID freshReplyChan (requests.getD [])),
        [.registered req.RequestID, .errorReported e])) ∧
    (writeStep requests req (.ok body) none (some e) =
      (some (insertK req.RequestID freshReplyChan (requests.getD [])),
        [.registered req.RequestID, .wrote body, .errorReported e])) ∧
    (writeLoop (j :: rest) requests =
      ((writeLoop rest (writeStep requests j.req j.marshalResult j.w1 j.w2).1).1,
        (writeStep requests j.req j.marshalResult j.w1 j.w2).2 ++
          (writeLoop rest (writeStep requests j.req j.marshalResult j.w1 j.w2).1).2)) := by
  refine ⟨?_, fun h => ?_, rfl, ?_, rfl, rfl⟩
  · intro b hb
    cases mr with
    | error e0 => simp [writeStep] at hb
    | ok body0 =>
        cases w1 with
        | some e1 => simp [writeStep] at hb
        | none =>
            cases w2 with
            | some e2 => simp [writeStep]
            | none => simp [writeStep]
  · subst h
    cases w1 with
    | some e1 => rfl
    | none =>
        cases w2 with
        | some e2 => rfl
        | none => rfl
  · cases w2 with
    | some e2 => rfl
    | none => rfl

/-- Witness: a body-write failure leaves request `42` registered with its
untouched fresh channel and reports the error, and the loop still
processes the following queued request in full. -/
theorem writer_registers_before_write_witness :
    writeStep none sampleReq (.ok "body") (some "broken pipe") none =
      (some [(42, freshReplyChan)], [.registered 42, .errorReported "broken pipe"]) ∧
    writeLoop
        [{ req := sampleReq, marshalResult := .ok "body", w1 := some "broken pipe", w2 := none },
         { req := { Command := [.str "get_version"], RequestID := 7, Async := true,
                    responseChan := some 2 },
           marshalResult := .ok "v", w1 := none, w2 := none }] none =
      (some [(7, freshReplyChan), (42, freshReplyChan)],
        [.registered 42, .errorReported "broken pipe", .registered 7, .wrote "v", .wrote "\n"]) := by
  have h := writer_registers_before_write none sampleReq (.ok "body") (some "broken pipe") none
    "broken pipe" "body"
    { req := sampleReq, marshalResult := .ok "body", w1 := some "broken pipe", w2 := none }
    [{ req := { Command := [.str "get_version"], RequestID := 7, Async := true,
                responseChan := some 2 },
       marshalResult := .ok "v", w1 := none, w2 := none }]
  exact ⟨h.2.2.2.1, h.2.2.2.2.2⟩

/-- Claim C7: the Reader Loop closes the client down and terminates on
end-of-stream (later read results are never consumed); it reports any
other read error to the error sink and keeps reading; it reports a line
that fails to decode and discards it without dispatch; and it hands every
successfully decoded line to the dispatcher. -/
theorem reader_loop_policy (rest : List ReadInput) (s : DState) (cs : CloseState)
    (e l : String) (r : ipcResponse) :
    (readLoop (.eofMark :: rest) s cs = (s, (Close cs).1, [.closedDown])) ∧
    (readLoop (.readError e :: rest) s cs =
      ((readLoop rest s cs).1, (readLoop rest s cs).2.1,
        .reportedContinue e :: (readLoop rest s cs).2.2)) ∧
    (decodeLine l = .error e →
      readLoop (.line l :: rest) s cs =
        ((readLoop rest s cs).1, (readLoop rest s cs).2.1,
          .reportedDecode e :: (readLoop rest s cs).2.2)) ∧
    (decodeLine l = .ok r →
      readLoop (.line l :: rest) s cs =
        ((readLoop rest (dispatch s r) cs).1, (readLoop rest (dispatch s r) cs).2.1,
          .dispatched r :: (readLoop rest (dispatch s r) cs).2.2)) := by
  refine ⟨rfl, rfl, fun h => ?_, fun h => ?_⟩ <;> simp [readLoop, h]

/-- Witness: end-of-stream closes the client and leaves the rest of the
input unread; a non-JSON line is reported and discarded without dispatch;
a well-formed event line is decoded and dispatched. -/
theorem reader_loop_policy_witness :
    readLoop [.eofMark, .readError "transient"] emptyState openClient =
      (emptyState, { closed := true, receiverClosed := true, connClosed := true },
        [.closedDown]) ∧
    readLoop [.line "not json"] emptyState openClient =
      (emptyState, openClient, [.reportedDecode "invalid JSON line"]) ∧
    readLoop [.line "\x7b\"event\":\"pause\"\x7d\n"] emptyState openClient =
      (emptyState, openClient,
        [.dispatched { Error := "", Data := .null, RequestID := 0, Event := "pause",
                       EventData := [], ID := 0 }]) := by
  refine ⟨?_, ?_, ?_⟩
  · exact (reader_loop_policy [.readError "transient"] emptyState openClient
      "x" "x" successResp).1
  · exact (reader_loop_policy [] emptyState openClient
      "invalid JSON line" "not json" successResp).2.2.1 rfl
  · exact (reader_loop_policy [] emptyState openClient
      "x" "\x7b\"event\":\"pause\"\x7d\n"
      { Error := "", Data := .null, RequestID := 0, Event := "pause",
        EventData := [], ID := 0 }).2.2.2 rfl

/-- Claim C8: a `property-change` frame is routed by the numeric `id`
field of the frame (decoding maps that field into the response's `ID`,
erroring unless it is numeric); a registered observer's callback is
spawned with the frame's data payload, and a frame whose id matches no
observer (or arriving while the observer map is still nil) is discarded
without error and without touching any registration. -/
theorem dispatch_property_change (s : DState) (m : List (Int × Nat)) (r : ipcResponse)
    (tag : Nat) (kvs : List (String × Json)) (rr : ipcResponse)
    (hev : r.Event = "property-change") :
    (s.observers = none → dispatch s r = s) ∧
    (s.observers = some m → lookupK r.ID m = none → dispatch s r = s) ∧
    (s.observers = some m → lookupK r.ID m = some tag →
      dispatch s r = { s with spawns := s.spawns ++ [.observerCall tag r.Data] }) ∧
    (decodeResponse (.obj kvs) = .ok rr → fieldInt kvs "id" = .ok rr.ID) := by
  refine ⟨fun h => ?_, fun h hl => ?_, fun h hl => ?_, fun h => ?_⟩
  · simp [dispatch, hev, h]
  · simp [dispatch, hev, h, hl]
  · simp [dispatch, hev, h, hl]
  · simp only [decodeResponse] at h
    cases h1 : fieldString kvs "error" with
    | error e0 => rw [h1] at h; exact absurd h (by simp)
    | ok er =>
        rw [h1] at h
        cases h2 : fieldInt kvs "request_id" with
        | error e0 => rw [h2] at h; exact absurd h (by simp)
        | ok rid =>
            rw [h2] at h
            cases h3 : fieldString kvs "event" with
            | error e0 => rw [h3] at h; exact absurd h (by simp)
            | ok ev =>
                rw [h3] at h
                cases h4 : fieldInt kvs "id" with
                | error e0 => rw [h4] at h; exact absurd h (by simp)
                | ok i =>
                    rw [h4] at h
                    injection h with h6
                    rw [← h6]

/-- Witness: the frame decoded from a concrete `property-change` line
carries the payload id `7`; a matching observer is spawned on the data
payload, and with no matching observer the state is unchanged. -/
theorem dispatch_property_change_witness :
    dispatch { requests := none, completed := [], observers := some [(7, 3)], listeners := none,
               spawns := [] }
        { Error := "", Data := .num 50, RequestID := 0, Event := "property-change",
          EventData := [("name", .str "volume")], ID := 7 } =
      { requests := none, completed := [], observers := some [(7, 3)], listeners := none,
        spawns := [.observerCall 3 (.num 50)] } ∧
    dispatch { requests := none, completed := [], observers := some [(9, 4)], listeners := none,
               spawns := [] }
        { Error := "", Data := .num 50, RequestID := 0, Event := "property-change",
          EventData := [("name", .str "volume")], ID := 7 } =
      { requests := none, completed := [], observers := some [(9, 4)], listeners := none,
        spawns := [] } ∧
    fieldInt [("event", .str "property-change"), ("id", .num 7), ("name", .str "volume"),
      ("data", .num 50)] "id" = .ok 7 := by
  refine ⟨?_, ?_, ?_⟩
  · exact (dispatch_property_change
      { requests := none, completed := [], observers := some [(7, 3)], listeners := none,
        spawns := [] } [(7, 3)]
      { Error := "", Data := .num 50, RequestID := 0, Event := "property-change",
        EventData := [("name", .str "volume")], ID := 7 } 3 [] successResp rfl).2.2.1 rfl rfl
  · exact (dispatch_property_change
      { requests := none, completed := [], observers := some [(9, 4)], listeners := none,
        spawns := [] } [(9, 4)]
      { Error := "", Data := .num 50, RequestID := 0, Event := "property-change",
        EventData := [("name", .str "volume")], ID := 7 } 3 [] successResp rfl).2.1 rfl rfl
  · exact (dispatch_property_change
      { requests := none, completed := [], observers := some [(7, 3)], listeners := none,
        spawns := [] } [(7, 3)]
      { Error := "", Data := .num 50, RequestID := 0, Event := "property-change",
        EventData := [("name", .str "volume")], ID := 7 } 3
      [("event", .str "property-change"), ("id", .num 7), ("name", .str "volume"),
        ("data", .num 50)]
      { Error := "", Data := .num 50, RequestID := 0, Event := "property-change",
        EventData := [("name", .str "volume")], ID := 7 } rfl).2.2.2 rfl

/-- Claim C9: marshalling the request with command
`["get_property", "volume"]`, request id `42` and async `false` produces
exactly the expected JSON object, which the writer puts on the wire
followed by a single newline write; and decoding the reply line carrying
error `"success"`, data `50`, request id `42` yields the value `50` with
no error. -/
theorem codec_roundtrip :
    encodeRequest sampleReq =
      "\x7b\"command\":[\"get_property\",\"volume\"],\"request_id\":42,\"async\":false\x7d" ∧
    (writeStep none sampleReq (.ok (encodeRequest sampleReq)) none none).2 =
      [.registered 42, .wrote (encodeRequest sampleReq), .wrote "\n"] ∧
    decodeLine "\x7b\"error\":\"success\",\"data\":50,\"request_id\":42\x7d\n" =
      .ok { Error := "success", Data := .num 50, RequestID := 42, Event := "",
            EventData := [], ID := 0 } ∧
    (requestSend false sampleReq
      { Error := "success", Data := .num 50, RequestID := 42, Event := "",
        EventData := [], ID := 0 }).1 = .ok (.num 50) :=
  ⟨by decide, rfl, rfl, rfl⟩

end Gopv
